import Mathlib

/-!
Verification of the retrieval-and-conversation engine in `app.py`.

The engine's pure logic is embedded shallowly:
* `load_all_files` models the corpus loader; the directory walk and the
  per-file text extractors (PyPDF2 / plain read) are external collaborators,
  passed as parameters.
* `rank_documents` models the relevance ranker; the TF-IDF vectorizer plus
  `cosine_similarity` (sklearn) are one external collaborator returning the
  similarity score of each document against the query.  `argsort` (numpy;
  its default kind is documented as not stable, so the order of tied scores
  is implementation-defined — the model fixes the stable ascending order as
  one deterministic realization, and no theorem below depends on that
  tie-order choice) and `heapq.nlargest` (documented as
  `sorted(..., reverse=True)[:n]`, a stable descending sort) are embedded
  directly.
* `generate_follow_up_questions` embeds the two `re.sub` normalizations, the
  lookbehind-driven sentence split and the question loop character by
  character, with Python's ASCII whitespace/word-character classes.
* `chatbot_respond` models the orchestrator; the Gemini call is an external
  collaborator parameter.  Python exceptions are modelled with `Except`.
-/

/-- Python `\s` on the ASCII range (str.split / str.strip / re whitespace). -/
def pyWs (c : Char) : Bool :=
  c == ' ' || c == '\t' || c == '\n' || c == '\r' || c == '\x0b' || c == '\x0c'

/-- Python `str.strip()`: drop leading and trailing whitespace. -/
def pyStrip (s : String) : String :=
  String.mk (((s.data.dropWhile pyWs).reverse.dropWhile pyWs).reverse)

/-- Worker for Python `str.split()`: `cur` holds the reversed current word. -/
def pySplitWsAux : List Char → List Char → List String
  | cur, [] => if cur.isEmpty then [] else [String.mk cur.reverse]
  | cur, c :: rest =>
    if pyWs c then
      if cur.isEmpty then pySplitWsAux [] rest
      else String.mk cur.reverse :: pySplitWsAux [] rest
    else pySplitWsAux (c :: cur) rest

/-- Python `str.split()` with no argument: split on whitespace runs, dropping
empty pieces. -/
def pySplitWs (s : String) : List String :=
  pySplitWsAux [] s.data

/-- Python `\w` on the ASCII range. -/
def isPyWordChar (c : Char) : Bool := c.isAlphanum || c == '_'

/-- `re.sub(r'(\d+)[,;](\d+)', r'\1 \2', s)` on a character list: leftmost
non-overlapping matches, greedy digit runs, scanning resumes after each
match.  The fuel argument (called with the list length, which suffices since
every recursive call consumes at least one character) makes the recursion
structural. -/
def normNumsFuel : Nat → List Char → List Char
  | 0, rest => rest
  | _ + 1, [] => []
  | fuel + 1, c :: rest =>
    if c.isDigit then
      let run1 := (c :: rest).takeWhile Char.isDigit
      let rest1 := (c :: rest).dropWhile Char.isDigit
      match rest1 with
      | [] => run1
      | sep :: rest2 =>
        if (sep == ',' || sep == ';')
            && (match rest2 with | d :: _ => d.isDigit | [] => false) then
          run1 ++ ' ' :: rest2.takeWhile Char.isDigit
            ++ normNumsFuel fuel (rest2.dropWhile Char.isDigit)
        else
          run1 ++ normNumsFuel fuel rest1
    else c :: normNumsFuel fuel rest

/-- Line 117: `re.sub(r'(\d+)[,;](\d+)', r'\1 \2', relevant_text)`. -/
def normNums (s : String) : String :=
  String.mk (normNumsFuel s.data.length s.data)

/-- Worker for `re.sub(r'\s+', ' ', s)`: the flag records whether the previous
character was consumed as part of a whitespace run. -/
def collapseWsAux : Bool → List Char → List Char
  | _, [] => []
  | prevWs, c :: rest =>
    if pyWs c then
      if prevWs then collapseWsAux true rest
      else ' ' :: collapseWsAux true rest
    else c :: collapseWsAux false rest

/-- Line 118: `re.sub(r'\s+', ' ', relevant_text)`. -/
def collapseWs (s : String) : String :=
  String.mk (collapseWsAux false s.data)

/-- Does the split regex `(?<!\w\.\w.)(?<![A-Z][a-z]\.)(?<=\.|\?|\!)\s` match a
whitespace character whose preceding characters (most recent first) are
`prev`?  A negative lookbehind succeeds trivially when fewer characters are
available than its width. -/
def splitPointOk (prev : List Char) : Bool :=
  match prev with
  | [] => false
  | p1 :: t =>
    (p1 == '.' || p1 == '?' || p1 == '!')
      && !(match t with
           | p2 :: p3 :: p4 :: _ => isPyWordChar p4 && p3 == '.' && isPyWordChar p2
           | _ => false)
      && !(match t with
           | p2 :: p3 :: _ => p3.isUpper && p2.isLower && p1 == '.'
           | _ => false)

/-- Worker for the sentence split: `prev` is the reversed list of characters
already passed (the lookbehind context), `acc` the reversed current piece. -/
def splitSentencesAux (prev acc : List Char) : List Char → List String
  | [] => [String.mk acc.reverse]
  | c :: rest =>
    if pyWs c && splitPointOk prev then
      String.mk acc.reverse :: splitSentencesAux (c :: prev) [] rest
    else
      splitSentencesAux (c :: prev) (c :: acc) rest

/-- Line 121: `re.split(r'(?<!\w\.\w.)(?<![A-Z][a-z]\.)(?<=\.|\?|\!)\s', t)`. -/
def splitSentences (s : String) : List String :=
  splitSentencesAux [] [] s.data

/-- Python `" ".join(ws)`. -/
def joinSpace : List String → String
  | [] => ""
  | [w] => w
  | w :: ws => w ++ " " ++ joinSpace ws

/-- Line 129: `"What about " + " ".join(words[:5]) + "?"` where
`words = sentence.split()`. -/
def buildQuestion (sentence : String) : String :=
  "What about " ++ joinSpace ((pySplitWs sentence).take 5) ++ "?"

/-- Lines 124-132: one iteration body of the loop in
`generate_follow_up_questions`: strip the sentence; if it is longer than 20
characters, build the candidate question and append it unless it already
occurs in `previous_questions`. -/
def followStep (previous_questions acc : List String) (s : String) : List String :=
  let sentence := pyStrip s
  if sentence.length > 20 then
    let question := buildQuestion sentence
    if previous_questions.contains question then acc else acc ++ [question]
  else acc

/-- Lines 123-136: the accumulation loop of `generate_follow_up_questions`;
the loop breaks once three questions are collected (the check sits at the end
of each iteration). -/
def followLoop (previous_questions : List String) : List String → List String → List String
  | acc, [] => acc
  | acc, s :: rest =>
    let acc' := followStep previous_questions acc s
    if 3 ≤ acc'.length then acc' else followLoop previous_questions acc' rest

/-- Lines 113-138: `generate_follow_up_questions(relevant_text, previous_questions)`. -/
def generate_follow_up_questions (relevant_text : String) (previous_questions : List String) :
    List String :=
  followLoop previous_questions [] (splitSentences (collapseWs (normNums relevant_text)))

/-- The distinct `ValueError`s raised inside `rank_documents`, plus failures
propagating out of the sklearn collaborator. -/
inductive RankError where
  | emptyCorpus
  | emptyQuery
  | insufficientCorpus
  | collaborator (msg : String)
deriving DecidableEq

/-- `str(e)` for each `RankError`, as used by the orchestrator's handler. -/
def RankError.message : RankError → String
  | .emptyCorpus => "No documents found to rank against. Ensure documents are loaded correctly."
  | .emptyQuery => "Query is empty or contains only whitespace."
  | .insufficientCorpus => "There are no valid documents to compare the query against."
  | .collaborator m => m

/-- The sklearn collaborator (TfidfVectorizer.fit_transform followed by
`cosine_similarity(tfidf_matrix[-1], tfidf_matrix[:-1])`): from the document
texts and the query it returns one similarity score per document (the shape
guarantee of `cosine_similarity`), or fails (e.g. empty vocabulary). -/
def CosineFn : Type :=
  (docs : List String) → (query : String) → Except String { l : List ℚ // l.length = docs.length }

/-- The ordering used to model numpy `argsort`: ascending by score, ties in
ascending index order.  numpy's default sort kind is documented as not
stable, so the program fixes no tie order; this total order picks one
deterministic realization (the stable one).  No theorem below relies on the
tie-order component of this choice. -/
def argLe (scores : List ℚ) (i j : Nat) : Prop :=
  scores.getD i 0 < scores.getD j 0 ∨ (scores.getD i 0 = scores.getD j 0 ∧ i ≤ j)

instance (scores : List ℚ) : DecidableRel (argLe scores) := fun i j => by
  unfold argLe; infer_instance

/-- Line 108's `cosine_sim.flatten().argsort()`: the indices `0 .. n-1`
sorted by ascending score; ties taken in ascending index order as one
deterministic realization of numpy's unspecified tie order. -/
def argsortAsc (scores : List ℚ) : List Nat :=
  List.insertionSort (argLe scores) (List.range scores.length)

/-- `heapq.nlargest(n, xs, key)`, documented as
`sorted(xs, key=key, reverse=True)[:n]` — a stable descending sort followed by
truncation (insertion sort is stable, so it realizes it exactly). -/
def nlargest (n : Nat) (xs : List Nat) (key : Nat → ℚ) : List Nat :=
  (List.insertionSort (fun a b => key b ≤ key a) xs).take n

/-- Lines 92-110: `rank_documents(query)` over the corpus `pdf_texts` (an
insertion-ordered path ↦ text association list) with the sklearn collaborator
as a parameter.  `tfidf_matrix.shape[0]` is the number of vectorized texts,
`all_texts.length + 1`. -/
def rank_documents (cosine : CosineFn) (pdf_texts : List (String × String)) (query : String) :
    Except RankError (List Nat) :=
  if pdf_texts.isEmpty then .error .emptyCorpus
  else
    let all_texts := pdf_texts.map Prod.snd
    if (pyStrip query).isEmpty then .error .emptyQuery
    else
      match cosine all_texts query with
      | .error e => .error (.collaborator e)
      | .ok scores =>
        if all_texts.length + 1 < 2 then .error .insufficientCorpus
        else
          let ranked_docs := (argsortAsc scores.val).reverse
          .ok (nlargest 3 ranked_docs (fun idx => scores.val.getD idx 0))

/-- One entry of the per-session history dictionary (lines 156-160). -/
structure SessionData where
  query : String
  follow_up_questions : List String
  relevant_text : String
deriving DecidableEq

/-- Line 150: `user_query_history.get(session_id, {}).get("follow_up_questions", [])`. -/
def previousQuestionsOf (history : String → Option SessionData) (session_id : String) :
    List String :=
  match history session_id with
  | some s => s.follow_up_questions
  | none => []

/-- Lines 144-147: concatenate the ranked documents' texts, each followed by a
newline. -/
def relevantTextOf (pdf_texts : List (String × String)) (ranked_docs : List Nat) : String :=
  (ranked_docs.map (fun idx => (pdf_texts.map Prod.snd).getD idx "" ++ "\n")).foldl (· ++ ·) ""

/-- Lines 163-169: the f-string prompt sent to the generation collaborator. -/
def systemPrompt (user_query relevant_text : String) : String :=
  "\n       You are a knowledgeable assistant. Your role is to provide accurate and concise responses based only on the information in the provided documents.\n        User\x27s Question: \"" ++
    user_query ++
    "\"\n        Relevant Context from Documents:\n        " ++
    relevant_text ++
    "\n        Answer the user\x27s question in a professional tone, using no more than 100 words. Do not include any information that is not found in the documents.\n        "

/-- Lines 171-176: issue the prompt to the generation collaborator; a raised
exception is caught by the handler and becomes an error answer with an empty
follow-up list.  The session history (already updated before the call — no
rollback) is returned alongside. -/
def sendAndRespond (send : String → Except String String) (prompt : String)
    (follow_up_questions : List String) (history' : String → Option SessionData) :
    (String × List String) × (String → Option SessionData) :=
  match send prompt with
  | .error e => (("Error processing your query: " ++ e, []), history')
  | .ok text => ((pyStrip text, follow_up_questions), history')

/-- Lines 141-176: `chatbot_respond(user_query, session_id)`.  `send` is the
Gemini collaborator (`chat_session.send_message`); any exception from ranking
or generation is caught and turned into an error answer with an empty
follow-up list.  Returns the response pair and the updated session history. -/
def chatbot_respond (cosine : CosineFn) (send : String → Except String String)
    (pdf_texts : List (String × String)) (history : String → Option SessionData)
    (user_query session_id : String) :
    (String × List String) × (String → Option SessionData) :=
  match rank_documents cosine pdf_texts user_query with
  | .error e => (("Error processing your query: " ++ e.message, []), history)
  | .ok ranked_docs =>
    let relevant_text := relevantTextOf pdf_texts ranked_docs
    let previous_questions := previousQuestionsOf history session_id
    let follow_up_questions := generate_follow_up_questions relevant_text previous_questions
    let history' : String → Option SessionData :=
      fun k => if k = session_id then
        some { query := user_query, follow_up_questions := follow_up_questions,
               relevant_text := relevant_text }
        else history k
    sendAndRespond send (systemPrompt user_query relevant_text) follow_up_questions history'

/-- One row of `file_details` (lines 55-59). -/
structure FileDetail where
  file_name : String
  file_path : String
  mime_type : String
deriving DecidableEq

/-- Python `s.endswith(suffix)`. -/
def pyEndsWith (s suffix : String) : Bool :=
  List.isSuffixOf suffix.data s.data

/-- Line 53: the `endswith`-chain assigning a mime type. -/
def mimeType (file_name : String) : Option String :=
  if pyEndsWith file_name ".pdf" then some "application/pdf"
  else if pyEndsWith file_name ".txt" then some "text/plain"
  else none

/-- Python dict assignment `d[k] = v` on an insertion-ordered association
list: an existing key keeps its position and gets the new value, a new key is
appended. -/
def dictInsert (k v : String) (d : List (String × String)) : List (String × String) :=
  if d.any (fun p => p.1 == k) then
    d.map (fun p => if p.1 == k then (k, v) else p)
  else d ++ [(k, v)]

/-- Lines 50-71: the per-file body of the `os.walk` loop.  The accumulator is
the `(file_details, pdf_texts)` pair of globals; a recognized file is
recorded in `file_details` first, then extracted, and an extraction failure is
swallowed (the corpus is left untouched for that file). -/
def loadStep (extract : String → String → Except String String)
    (acc : List FileDetail × List (String × String)) (f : String × String) :
    List FileDetail × List (String × String) :=
  match mimeType f.1 with
  | none => acc
  | some m =>
    let details := acc.1 ++ [⟨f.1, f.2, m⟩]
    match extract m f.2 with
    | .error _ => (details, acc.2)
    | .ok text => (details, dictInsert f.2 text acc.2)

/-- Lines 45-73: `load_all_files()`.  `walk` is the `(file_name, file_path)`
sequence produced by `os.walk`; `extract` the per-type text extractor, which
may raise.  The accumulator starts from `([], pdf_texts)`: `file_details` is
reset to `[]`, while the global `pdf_texts` dictionary is *not* cleared —
entries are only added or overwritten.  Returns the new
`(file_details, pdf_texts)`. -/
def load_all_files (walk : List (String × String))
    (extract : String → String → Except String String)
    (pdf_texts : List (String × String)) :
    List FileDetail × List (String × String) :=
  walk.foldl (loadStep extract) ([], pdf_texts)

/-- A similarity collaborator scoring every document 0 (fixture for concrete
instantiations). -/
def cosineZero : CosineFn := fun docs _ => .ok ⟨docs.map (fun _ => (0 : ℚ)), by simp⟩

/-- A two-document corpus with identical texts — under TF-IDF such documents
receive equal (tied) similarity scores, here realized by `cosineZero`. -/
def corpusPair : List (String × String) :=
  [("a.txt", "apple banana"), ("b.txt", "apple banana")]

/-- The tied score vector `cosineZero` assigns to `corpusPair`. -/
def zeroPair : { l : List ℚ // l.length = (corpusPair.map Prod.snd).length } :=
  ⟨[0, 0], rfl⟩

/-- A generation collaborator that always answers "ans" (fixture). -/
def sendOk : String → Except String String := fun _ => .ok "ans"

/-- The empty session store (fixture). -/
def histEmpty : String → Option SessionData := fun _ => none

/-- A single-document corpus (fixture). -/
def corpusOne : List (String × String) := [("doc.txt", "text")]

/-- An extractor that always succeeds with "y" (fixture). -/
def extractConst : String → String → Except String String := fun _ _ => .ok "y"

/-- Session store after a first turn with query "first" on session "s" over
`corpusOne` (fixture for the session-overwrite claim). -/
def hist9a : String → Option SessionData := fun k =>
  if k = "s" then
    some { query := "first", follow_up_questions := [], relevant_text := "text\n" }
  else histEmpty k

/-- Session store after a second turn with query "second" on session "s"
(fixture for the session-overwrite claim). -/
def hist9b : String → Option SessionData := fun k =>
  if k = "s" then
    some { query := "second", follow_up_questions := [], relevant_text := "text\n" }
  else hist9a k

/-- Reference description of the loop body of `generate_follow_up_questions`
in the spec's terms: the candidate question of every sentence whose stripped
form is longer than 20 characters and whose question is not already in
`previous_questions`, in sentence order.  The loop is proved to return the
first three of these. -/
def candidateQuestions (previous_questions : List String) (sentences : List String) :
    List String :=
  sentences.filterMap (fun s =>
    let sentence := pyStrip s
    if sentence.length > 20 then
      let question := buildQuestion sentence
      if previous_questions.contains question then none else some question
    else none)

/-! ## Helper lemmas about the ranking pipeline -/

theorem argLe_total (s : List ℚ) : ∀ a b, argLe s a b ∨ argLe s b a := by
  intro a b
  unfold argLe
  rcases lt_trichotomy (s.getD a 0) (s.getD b 0) with h | h | h
  · exact Or.inl (Or.inl h)
  · rcases Nat.le_total a b with hab | hab
    · exact Or.inl (Or.inr ⟨h, hab⟩)
    · exact Or.inr (Or.inr ⟨h.symm, hab⟩)
  · exact Or.inr (Or.inl h)

theorem argLe_trans (s : List ℚ) : ∀ a b c, argLe s a b → argLe s b c → argLe s a c := by
  intro a b c hab hbc
  unfold argLe at *
  rcases hab with h1 | ⟨h1, h1'⟩ <;> rcases hbc with h2 | ⟨h2, h2'⟩
  · exact Or.inl (h1.trans h2)
  · exact Or.inl (h2 ▸ h1)
  · exact Or.inl (h1 ▸ h2)
  · exact Or.inr ⟨h1.trans h2, h1'.trans h2'⟩

instance (s : List ℚ) : IsTotal Nat (argLe s) := ⟨argLe_total s⟩

instance (s : List ℚ) : IsTrans Nat (argLe s) := ⟨argLe_trans s⟩

theorem argsortAsc_perm (s : List ℚ) : (argsortAsc s).Perm (List.range s.length) :=
  List.perm_insertionSort _ _

theorem argsortAsc_sorted (s : List ℚ) : (argsortAsc s).Pairwise (argLe s) :=
  List.sorted_insertionSort _ _

/-- The reversed argsort is already sorted for `nlargest`'s descending
key comparison, so the stable descending sort inside `nlargest` is the
identity on it. -/
theorem nlargest_of_rank (s : List ℚ) :
    nlargest 3 ((argsortAsc s).reverse) (fun idx => s.getD idx 0) =
      ((argsortAsc s).reverse).take 3 := by
  unfold nlargest
  rw [List.Sorted.insertionSort_eq]
  apply List.pairwise_reverse.mpr
  exact (argsortAsc_sorted s).imp (by
    intro a b hab
    rcases hab with h | ⟨h, _⟩
    · exact le_of_lt h
    · exact le_of_eq h)

theorem rank_documents_ok (cosine : CosineFn) (c : List (String × String)) (q : String)
    (s : { l : List ℚ // l.length = (c.map Prod.snd).length })
    (hne : c.isEmpty = false) (hq : (pyStrip q).isEmpty = false)
    (hcos : cosine (c.map Prod.snd) q = Except.ok s) :
    rank_documents cosine c q = .ok (((argsortAsc s.val).reverse).take 3) := by
  have hcne : c ≠ [] := fun h => by simp [h] at hne
  have hpos : 0 < c.length := List.length_pos.mpr hcne
  have hlen : ¬ ((c.map Prod.snd).length + 1 < 2) := by
    simp only [List.length_map]; omega
  unfold rank_documents
  simp only [hne, hq, Bool.false_eq_true, if_false]
  rw [hcos]
  simp only [if_neg hlen]
  rw [nlargest_of_rank s.val]

theorem rank_documents_ok_inv (cosine : CosineFn) (c : List (String × String)) (q : String)
    (res : List Nat) (h : rank_documents cosine c q = .ok res) :
    c.isEmpty = false ∧ (pyStrip q).isEmpty = false := by
  unfold rank_documents at h
  by_cases h1 : c.isEmpty <;> by_cases h2 : (pyStrip q).isEmpty <;> simp_all

/-- Claim C1: whenever ranking succeeds, the result holds `min 3 n` document
identities (`n` the corpus size) — at most 3, fewer only for a smaller
corpus — each one a valid index into the corpus, with no duplicates. -/
theorem rank_result_shape (cosine : CosineFn) (c : List (String × String)) (q : String)
    (s : { l : List ℚ // l.length = (c.map Prod.snd).length }) (res : List Nat)
    (hcos : cosine (c.map Prod.snd) q = Except.ok s)
    (hres : rank_documents cosine c q = Except.ok res) :
    res.length = min 3 c.length ∧ (∀ i ∈ res, i < c.length) ∧ res.Nodup := by
  obtain ⟨h1, h2⟩ := rank_documents_ok_inv cosine c q res hres
  rw [rank_documents_ok cosine c q s h1 h2 hcos] at hres
  injection hres with hres
  subst hres
  have hslen : s.val.length = c.length := by rw [s.property, List.length_map]
  have hlenas : (argsortAsc s.val).length = c.length := by
    unfold argsortAsc
    rw [List.length_insertionSort, List.length_range, hslen]
  refine ⟨?_, ?_, ?_⟩
  · simp [List.length_take, List.length_reverse, hlenas]
  · intro i hi
    have hi1 : i ∈ (argsortAsc s.val).reverse := List.mem_of_mem_take hi
    have hi2 : i ∈ argsortAsc s.val := List.mem_reverse.mp hi1
    have hi3 : i ∈ List.range s.val.length := (argsortAsc_perm s.val).mem_iff.mp hi2
    have := List.mem_range.mp hi3
    omega
  · apply List.Nodup.sublist (List.take_sublist _ _)
    apply List.nodup_reverse.mpr
    exact ((argsortAsc_perm s.val).nodup_iff).mpr (List.nodup_range _)

/-- Claim C1 witness: a concrete successful ranking over a one-document
corpus, with the three shape conclusions instantiated. -/
theorem rank_result_shape_witness :
    cosineZero (corpusOne.map Prod.snd) "query" = Except.ok ⟨[0], rfl⟩ ∧
    rank_documents cosineZero corpusOne "query" = Except.ok [0] ∧
    ([0] : List Nat).length = min 3 corpusOne.length ∧
    (∀ i ∈ ([0] : List Nat), i < corpusOne.length) ∧ ([0] : List Nat).Nodup := by
  refine ⟨rfl, rfl, ?_⟩
  exact rank_result_shape cosineZero corpusOne "query" ⟨[0], rfl⟩ [0] rfl rfl

/-- Claim C2 counterexample: on a two-document corpus with tied scores
(identical documents score identically), the code returns `[1, 0]`, not the
original corpus order `[0, 1]` the claim demands for ties (a two-element
array is below numpy's insertion-sort cutoff, so the concrete program run
matches this computation). -/
theorem rank_stable_tie_counterexample :
    rank_documents cosineZero corpusPair "apple" = Except.ok [1, 0] ∧
    cosineZero (corpusPair.map Prod.snd) "apple" = Except.ok zeroPair ∧
    ¬ ([1, 0] : List Nat).Pairwise (fun i j =>
        zeroPair.val.getD j 0 < zeroPair.val.getD i 0 ∨
          (zeroPair.val.getD i 0 = zeroPair.val.getD j 0 ∧ i < j)) :=
  ⟨rfl, rfl, by decide⟩

/-- `nlargest` output is sorted by non-increasing key, whatever its input
list is — in particular regardless of the tie order `argsort` produced. -/
theorem nlargest_sorted (n : Nat) (xs : List Nat) (key : Nat → ℚ) :
    (nlargest n xs key).Pairwise (fun a b => key b ≤ key a) := by
  unfold nlargest
  apply List.Pairwise.sublist (List.take_sublist _ _)
  haveI : IsTotal Nat (fun a b => key b ≤ key a) := ⟨fun a b => le_total (key b) (key a)⟩
  haveI : IsTrans Nat (fun a b => key b ≤ key a) := ⟨fun _ _ _ h1 h2 => le_trans h2 h1⟩
  exact List.sorted_insertionSort _ xs

/-- Claim C2 (amended): the result is ordered by non-increasing similarity
score.  Equal-score documents carry no guaranteed relative order: numpy's
default `argsort` is documented as not stable, so the program fixes no tie
order, and the concrete tied corpus of the counterexample comes back in
`[1, 0]`, not original corpus order.  This ordering theorem is insensitive to
the tie order `argsort` produces, because `nlargest` re-sorts its input by
score. -/
theorem rank_sorted_desc (cosine : CosineFn) (c : List (String × String))
    (q : String) (s : { l : List ℚ // l.length = (c.map Prod.snd).length }) (res : List Nat)
    (hcos : cosine (c.map Prod.snd) q = Except.ok s)
    (hres : rank_documents cosine c q = Except.ok res) :
    res.Pairwise (fun i j => s.val.getD j 0 ≤ s.val.getD i 0) := by
  obtain ⟨h1, h2⟩ := rank_documents_ok_inv cosine c q res hres
  rw [rank_documents_ok cosine c q s h1 h2 hcos] at hres
  injection hres with hres
  subst hres
  rw [← nlargest_of_rank s.val]
  exact nlargest_sorted 3 ((argsortAsc s.val).reverse) (fun idx => s.val.getD idx 0)

/-- Claim C2 (amended) witness: at the tied two-document corpus the returned
order `[1, 0]` is (non-strictly) descending in score. -/
theorem rank_sorted_desc_witness :
    cosineZero (corpusPair.map Prod.snd) "apple" = Except.ok zeroPair ∧
    rank_documents cosineZero corpusPair "apple" = Except.ok [1, 0] ∧
    ([1, 0] : List Nat).Pairwise (fun i j =>
      zeroPair.val.getD j 0 ≤ zeroPair.val.getD i 0) :=
  ⟨rfl, rfl, rank_sorted_desc cosineZero corpusPair "apple" zeroPair [1, 0] rfl rfl⟩

/-- Claim C6 counterexample: on the empty corpus with an empty query the
corpus check fires first, so the failure is EmptyCorpus, not EmptyQuery. -/
theorem rank_empty_query_empty_corpus_counterexample :
    rank_documents cosineZero [] "" = Except.error RankError.emptyCorpus ∧
    RankError.emptyCorpus ≠ RankError.emptyQuery :=
  ⟨rfl, by decide⟩

/-- Claim C6 (amended): for every NONEMPTY corpus, an empty or all-whitespace
query makes ranking fail with EmptyQuery. -/
theorem rank_empty_query_error (cosine : CosineFn) (c : List (String × String)) (q : String)
    (hc : c.isEmpty = false) (hq : (pyStrip q).isEmpty = true) :
    rank_documents cosine c q = Except.error RankError.emptyQuery := by
  unfold rank_documents
  simp [hc, hq]

/-- Claim C6 (amended) witness: a whitespace-only query against a one-document
corpus. -/
theorem rank_empty_query_error_witness :
    corpusOne.isEmpty = false ∧ (pyStrip "   ").isEmpty = true ∧
    rank_documents cosineZero corpusOne "   " = Except.error RankError.emptyQuery :=
  ⟨rfl, rfl, rank_empty_query_error cosineZero corpusOne "   " rfl rfl⟩

/-- Claim C7 counterexample: a single-document corpus — the case the claim
designates as failing with InsufficientCorpus — succeeds and returns that
document. -/
theorem rank_single_doc_succeeds :
    rank_documents cosineZero corpusOne "query" = Except.ok [0] ∧ corpusOne.length = 1 :=
  ⟨rfl, rfl⟩

/-- Claim C7 (amended): ranking can never fail with InsufficientCorpus — once
the empty-corpus check has passed, at least two vectors (one document plus the
query) exist, so the `shape[0] < 2` guard is unreachable dead code. -/
theorem rank_never_insufficient_corpus (cosine : CosineFn) (c : List (String × String))
    (q : String) : rank_documents cosine c q ≠ Except.error RankError.insufficientCorpus := by
  unfold rank_documents
  by_cases h1 : c.isEmpty
  · simp [h1]
  · by_cases h2 : (pyStrip q).isEmpty
    · simp [h1, h2]
    · have hcne : c ≠ [] := by intro h; simp [h] at h1
      have hpos : 0 < c.length := List.length_pos.mpr hcne
      have hlen : ¬ ((c.map Prod.snd).length + 1 < 2) := by
        simp only [List.length_map]; omega
      cases hcos : cosine (c.map Prod.snd) q with
      | error e => simp [h1, h2, hcos]
      | ok s => simp [h1, h2, hcos, hlen, hcne]

/-- Claim C10: the ranking depends on nothing but the ordered document texts
and the query — two corpora with the same texts rank identically, and in
particular repeated calls on a fixed corpus and query are reproducible (the
embedding is a pure function of these inputs; no randomness exists). -/
theorem rank_deterministic (cosine : CosineFn) (c1 c2 : List (String × String)) (q : String)
    (h : c1.map Prod.snd = c2.map Prod.snd) :
    rank_documents cosine c1 q = rank_documents cosine c2 q := by
  have hlen : c1.length = c2.length := by
    have := congrArg List.length h
    simpa using this
  have hempty : c1.isEmpty = c2.isEmpty := by
    cases c1 <;> cases c2 <;> simp_all
  unfold rank_documents
  rw [hempty, h]

/-- Claim C10 witness: two corpora with equal texts under different paths rank
identically. -/
theorem rank_deterministic_witness :
    ([("a", "t")] : List (String × String)).map Prod.snd =
      ([("b", "t")] : List (String × String)).map Prod.snd ∧
    rank_documents cosineZero [("a", "t")] "q" = rank_documents cosineZero [("b", "t")] "q" :=
  ⟨rfl, rank_deterministic cosineZero [("a", "t")] [("b", "t")] "q" rfl⟩

/-- Claim C3: any ranker failure is caught at the orchestrator boundary and
surfaced as an error-describing answer string with an empty follow-up list,
leaving the session store untouched; `chatbot_respond` is a total function,
so no failure propagates through the request boundary. -/
theorem respond_surfaces_rank_errors (cosine : CosineFn) (send : String → Except String String)
    (c : List (String × String)) (hist : String → Option SessionData) (q sid : String)
    (e : RankError) (h : rank_documents cosine c q = Except.error e) :
    chatbot_respond cosine send c hist q sid =
      (("Error processing your query: " ++ e.message, []), hist) := by
  unfold chatbot_respond
  rw [h]

/-- Claim C3 witness: with the empty corpus the response is the error string
for the EmptyCorpus failure and no follow-up questions. -/
theorem respond_surfaces_rank_errors_witness :
    rank_documents cosineZero [] "why is the sky blue" = Except.error RankError.emptyCorpus ∧
    chatbot_respond cosineZero sendOk [] histEmpty "why is the sky blue" "default" =
      (("Error processing your query: " ++ RankError.emptyCorpus.message, []), histEmpty) :=
  ⟨rfl, respond_surfaces_rank_errors cosineZero sendOk [] histEmpty "why is the sky blue"
    "default" RankError.emptyCorpus rfl⟩

/-! ## Helper lemmas about the follow-up question loop -/

theorem followLoop_nil (prev acc : List String) : followLoop prev acc [] = acc := rfl

theorem followLoop_cons (prev acc : List String) (s : String) (rest : List String) :
    followLoop prev acc (s :: rest) =
      if 3 ≤ (followStep prev acc s).length then followStep prev acc s
      else followLoop prev (followStep prev acc s) rest := rfl

theorem followStep_eq (prev acc : List String) (s : String) :
    followStep prev acc s = acc ∨
    ∃ q, q ∉ prev ∧ followStep prev acc s = acc ++ [q] := by
  by_cases h1 : (pyStrip s).length > 20
  · by_cases h2 : buildQuestion (pyStrip s) ∈ prev
    · left
      simp [followStep, h1, h2]
    · right
      exact ⟨buildQuestion (pyStrip s), h2, by simp [followStep, h1, h2]⟩
  · left
    simp [followStep, h1]

theorem followLoop_length_le (prev : List String) :
    ∀ (sentences acc : List String), acc.length < 3 →
      (followLoop prev acc sentences).length ≤ 3 := by
  intro sentences
  induction sentences with
  | nil =>
    intro acc h
    rw [followLoop_nil]
    omega
  | cons s rest ih =>
    intro acc h
    rw [followLoop_cons]
    rcases followStep_eq prev acc s with he | ⟨q, _, he⟩
    · rw [he, if_neg (by omega)]
      exact ih acc h
    · rw [he]
      by_cases h3 : 3 ≤ (acc ++ [q]).length
      · rw [if_pos h3]
        simp only [List.length_append, List.length_singleton]
        omega
      · rw [if_neg h3]
        exact ih _ (by simp at h3 ⊢; omega)

theorem followLoop_mem (prev : List String) :
    ∀ (sentences acc : List String) (q : String), q ∈ followLoop prev acc sentences →
      q ∈ acc ∨ q ∉ prev := by
  intro sentences
  induction sentences with
  | nil =>
    intro acc q h
    rw [followLoop_nil] at h
    exact Or.inl h
  | cons s rest ih =>
    intro acc q h
    rw [followLoop_cons] at h
    rcases followStep_eq prev acc s with he | ⟨q', hq', he⟩
    · rw [he] at h
      by_cases h3 : 3 ≤ acc.length
      · rw [if_pos h3] at h
        exact Or.inl h
      · rw [if_neg h3] at h
        exact ih acc q h
    · rw [he] at h
      by_cases h3 : 3 ≤ (acc ++ [q']).length
      · rw [if_pos h3] at h
        rcases List.mem_append.mp h with h' | h'
        · exact Or.inl h'
        · simp only [List.mem_singleton] at h'
          subst h'
          exact Or.inr hq'
      · rw [if_neg h3] at h
        rcases ih _ q h with h' | h'
        · rcases List.mem_append.mp h' with h'' | h''
          · exact Or.inl h''
          · simp only [List.mem_singleton] at h''
            subst h''
            exact Or.inr hq'
        · exact Or.inr h'

theorem followLoop_eq_take (prev : List String) :
    ∀ (sentences acc : List String), acc.length < 3 →
      followLoop prev acc sentences =
        acc ++ (candidateQuestions prev sentences).take (3 - acc.length) := by
  intro sentences
  induction sentences with
  | nil =>
    intro acc h
    simp [followLoop_nil, candidateQuestions]
  | cons s rest ih =>
    intro acc h
    rw [followLoop_cons]
    by_cases h1 : (pyStrip s).length > 20
    · by_cases h2 : buildQuestion (pyStrip s) ∈ prev
      · have he : followStep prev acc s = acc := by simp [followStep, h1, h2]
        have hc : candidateQuestions prev (s :: rest) = candidateQuestions prev rest := by
          simp [candidateQuestions, h1, h2]
        rw [he, if_neg (by omega), hc]
        exact ih acc h
      · have he : followStep prev acc s = acc ++ [buildQuestion (pyStrip s)] := by
          simp [followStep, h1, h2]
        have hc : candidateQuestions prev (s :: rest) =
            buildQuestion (pyStrip s) :: candidateQuestions prev rest := by
          simp [candidateQuestions, h1, h2]
        rw [he, hc]
        by_cases h3 : 3 ≤ (acc ++ [buildQuestion (pyStrip s)]).length
        · rw [if_pos h3]
          have h2' : acc.length = 2 := by simp at h3; omega
          rw [h2']
          simp
        · rw [if_neg h3]
          have hlt : (acc ++ [buildQuestion (pyStrip s)]).length < 3 := Nat.lt_of_not_le h3
          rw [ih _ hlt]
          have hlen : (acc ++ [buildQuestion (pyStrip s)]).length = acc.length + 1 := by simp
          rw [hlen]
          have h4 : 3 - acc.length = (3 - (acc.length + 1)) + 1 := by omega
          rw [h4, List.take_succ_cons, List.append_assoc]
          rfl
    · have he : followStep prev acc s = acc := by simp [followStep, h1]
      have hc : candidateQuestions prev (s :: rest) = candidateQuestions prev rest := by
        simp [candidateQuestions, h1]
      rw [he, if_neg (by omega), hc]
      exact ih acc h

/-- Claim C5 counterexample: two sentences sharing their first five words
yield the *same* question twice in one call — deduplication is only checked
against `previous_questions`, not against the questions accumulated in the
current call, so the returned list holds a duplicate. -/
theorem generate_duplicate_counterexample :
    generate_follow_up_questions
        "What is the meaning of life today. What is the meaning of life tomorrow." [] =
      ["What about What is the meaning of?", "What about What is the meaning of?"] ∧
    ¬ (generate_follow_up_questions
        "What is the meaning of life today. What is the meaning of life tomorrow." []).Nodup :=
  ⟨rfl, by decide⟩

/-- Claim C5 (amended): the generator returns at most 3 questions and none of
them occurs in `previousQuestions`; the returned list itself, however, may
contain duplicates. -/
theorem generate_le_three_and_fresh (text : String) (prev : List String) :
    (generate_follow_up_questions text prev).length ≤ 3 ∧
    ∀ q ∈ generate_follow_up_questions text prev, q ∉ prev := by
  constructor
  · exact followLoop_length_le prev _ [] (by simp)
  · intro q hq
    rcases followLoop_mem prev _ [] q hq with h | h
    · simp at h
    · exact h

/-- Claim C5 (amended) witness: a generated question is fresh with respect to
a nonempty `previousQuestions`, and the output length is within bound. -/
theorem generate_le_three_and_fresh_witness :
    "What about What is the meaning of?" ∈
      generate_follow_up_questions
        "What is the meaning of life today. What is the meaning of life tomorrow." ["x"] ∧
    "What about What is the meaning of?" ∉ (["x"] : List String) ∧
    (generate_follow_up_questions
        "What is the meaning of life today. What is the meaning of life tomorrow."
        ["x"]).length ≤ 3 :=
  ⟨by decide,
   (generate_le_three_and_fresh
      "What is the meaning of life today. What is the meaning of life tomorrow." ["x"]).2
     "What about What is the meaning of?" (by decide),
   (generate_le_three_and_fresh
      "What is the meaning of life today. What is the meaning of life tomorrow." ["x"]).1⟩

/-- Claim C8 counterexample: a sentence whose trimmed length is exactly 20 —
which the claim says must produce a question — produces none, because the
code requires strictly more than 20 characters. -/
theorem generate_threshold_counterexample :
    (pyStrip "abcdefghij klmnopqr.").length = 20 ∧
    splitSentences (collapseWs (normNums "abcdefghij klmnopqr.")) =
      ["abcdefghij klmnopqr."] ∧
    generate_follow_up_questions "abcdefghij klmnopqr." [] = [] :=
  ⟨rfl, rfl, rfl⟩

/-- Claim C8 (amended): the generator returns exactly the first three
candidate questions, where, in sentence order, each sentence whose *stripped
length exceeds 20* (at least 21 characters) and whose question
"What about " + first-5-words + "?" is not in `previousQuestions` contributes
its question, and every other sentence contributes nothing. -/
theorem generate_characterization (text : String) (prev : List String) :
    generate_follow_up_questions text prev =
      (candidateQuestions prev (splitSentences (collapseWs (normNums text)))).take 3 := by
  unfold generate_follow_up_questions
  rw [followLoop_eq_take prev _ [] (by simp)]
  simp

/-! ## Helper lemmas about the corpus loader and the orchestrator -/

theorem dictInsert_mem_of_ne (k v : String) (p : String × String) (d : List (String × String))
    (hk : p.1 ≠ k) (hp : p ∈ d) : p ∈ dictInsert k v d := by
  unfold dictInsert
  by_cases hany : d.any (fun x => x.1 == k)
  · rw [if_pos hany]
    have heq : (fun x : String × String => if x.1 == k then (k, v) else x) p = p := by
      simp [hk]
    exact heq ▸ List.mem_map_of_mem _ hp
  · rw [if_neg hany]
    exact List.mem_append_left _ hp

theorem loadStep_preserves (extract : String → String → Except String String)
    (acc : List FileDetail × List (String × String)) (f : String × String)
    (p : String × String) (hf : f.2 ≠ p.1) (hp : p ∈ acc.2) :
    p ∈ (loadStep extract acc f).2 := by
  unfold loadStep
  split
  · exact hp
  · split
    · exact hp
    · exact dictInsert_mem_of_ne f.2 _ p acc.2 (fun h => hf h.symm) hp

theorem load_preserves_aux (extract : String → String → Except String String)
    (p : String × String) :
    ∀ (walk : List (String × String)) (acc : List FileDetail × List (String × String)),
      p ∈ acc.2 → (∀ f ∈ walk, f.2 ≠ p.1) →
      p ∈ (walk.foldl (loadStep extract) acc).2 := by
  intro walk
  induction walk with
  | nil =>
    intro acc hp _
    simpa using hp
  | cons f rest ih =>
    intro acc hp hfr
    rw [List.foldl_cons]
    exact ih _ (loadStep_preserves extract acc f p (hfr f (by simp)) hp)
      (fun g hg => hfr g (by simp [hg]))

/-- Claim C4 counterexample: after a load that successfully extracts only
`files/new.txt`, the corpus still contains the stale entry `files/old.txt`
from before the scan — it is not the snapshot consisting of this scan's
extractions alone. -/
theorem load_keeps_stale_counterexample :
    (load_all_files [("new.txt", "files/new.txt")] extractConst [("files/old.txt", "x")]).2 =
      [("files/old.txt", "x"), ("files/new.txt", "y")] ∧
    (load_all_files [("new.txt", "files/new.txt")] extractConst [("files/old.txt", "x")]).2 ≠
      [("files/new.txt", "y")] :=
  ⟨rfl, by decide⟩

/-- Claim C4 (amended): `load_all_files` merges instead of replacing — any
corpus entry whose path is not visited by the current scan survives the load
unchanged (while `file_details` is rebuilt from scratch). -/
theorem load_merges_stale_docs (walk : List (String × String))
    (extract : String → String → Except String String) (old : List (String × String))
    (p : String × String) (hp : p ∈ old) (hfresh : ∀ f ∈ walk, f.2 ≠ p.1) :
    p ∈ (load_all_files walk extract old).2 := by
  unfold load_all_files
  exact load_preserves_aux extract p walk ([], old) hp hfresh

/-- Claim C4 (amended) witness: the stale document of the counterexample
survives the concrete load. -/
theorem load_merges_stale_docs_witness :
    ("files/old.txt", "x") ∈ ([("files/old.txt", "x")] : List (String × String)) ∧
    (∀ f ∈ ([("new.txt", "files/new.txt")] : List (String × String)), f.2 ≠ "files/old.txt") ∧
    ("files/old.txt", "x") ∈
      (load_all_files [("new.txt", "files/new.txt")] extractConst
        [("files/old.txt", "x")]).2 :=
  ⟨by decide, by decide,
   load_merges_stale_docs [("new.txt", "files/new.txt")] extractConst [("files/old.txt", "x")]
     ("files/old.txt", "x") (by decide) (by decide)⟩

theorem sendAndRespond_snd (send : String → Except String String) (prompt : String)
    (follow_up_questions : List String) (history' : String → Option SessionData) :
    (sendAndRespond send prompt follow_up_questions history').2 = history' := by
  unfold sendAndRespond
  cases send prompt <;> rfl

theorem chatbot_respond_history (cosine : CosineFn) (send : String → Except String String)
    (c : List (String × String)) (hist : String → Option SessionData) (q sid : String)
    (docs : List Nat) (hrank : rank_documents cosine c q = Except.ok docs) :
    (chatbot_respond cosine send c hist q sid).2 = fun k =>
      if k = sid then
        some ⟨q,
          generate_follow_up_questions (relevantTextOf c docs) (previousQuestionsOf hist sid),
          relevantTextOf c docs⟩
      else hist k := by
  unfold chatbot_respond
  rw [hrank]
  split
  · rename_i e heq
    exact Except.noConfusion heq
  · rename_i rd heq
    injection heq with heq
    subst heq
    exact sendAndRespond_snd send (systemPrompt q (relevantTextOf c docs))
      (generate_follow_up_questions (relevantTextOf c docs) (previousQuestionsOf hist sid))
      (fun k => if k = sid then
        some (⟨q, generate_follow_up_questions (relevantTextOf c docs)
          (previousQuestionsOf hist sid), relevantTextOf c docs⟩ : SessionData)
      else hist k)

/-- Claim C9: after a second turn on the same session identifier whose ranking
succeeds, the session entry holds exactly the second turn's query, generated
follow-up questions and relevant text — the first turn's record is overwritten
wholesale, not merged. -/
theorem session_overwrite (cosine : CosineFn) (send : String → Except String String)
    (c : List (String × String)) (hist hist1 hist2 : String → Option SessionData)
    (q1 q2 sid : String) (r1 r2 : String × List String) (docs2 : List Nat)
    (_h1 : chatbot_respond cosine send c hist q1 sid = (r1, hist1))
    (hrank : rank_documents cosine c q2 = Except.ok docs2)
    (h2 : chatbot_respond cosine send c hist1 q2 sid = (r2, hist2)) :
    hist2 sid = some ⟨q2,
      generate_follow_up_questions (relevantTextOf c docs2) (previousQuestionsOf hist1 sid),
      relevantTextOf c docs2⟩ := by
  have hh := chatbot_respond_history cosine send c hist1 q2 sid docs2 hrank
  rw [h2] at hh
  have hh2 : hist2 = fun k =>
      if k = sid then
        some (⟨q2,
          generate_follow_up_questions (relevantTextOf c docs2) (previousQuestionsOf hist1 sid),
          relevantTextOf c docs2⟩ : SessionData)
      else hist1 k := hh
  rw [hh2]
  simp

/-- Claim C9 witness: two concrete sequential turns on session "s"; the final
store entry is exactly the second turn's record. -/
theorem session_overwrite_witness :
    chatbot_respond cosineZero sendOk corpusOne histEmpty "first" "s" = (("ans", []), hist9a) ∧
    rank_documents cosineZero corpusOne "second" = Except.ok [0] ∧
    chatbot_respond cosineZero sendOk corpusOne hist9a "second" "s" = (("ans", []), hist9b) ∧
    hist9b "s" = some ⟨"second",
      generate_follow_up_questions (relevantTextOf corpusOne [0])
        (previousQuestionsOf hist9a "s"),
      relevantTextOf corpusOne [0]⟩ :=
  ⟨rfl, rfl, rfl,
   session_overwrite cosineZero sendOk corpusOne histEmpty hist9a hist9b "first" "second" "s"
     ("ans", []) ("ans", []) [0] rfl rfl rfl⟩
